import Mathlib

/-!
Shallow embedding of the incident-detection core of the
Smart-Incident-Response-Platform backend
(`backend/app/services/incident_detection_service.py` and
`backend/app/services/azure_monitor_service.py`).

Conventions of the embedding:
* Python floats are modelled as exact rationals (`ℚ`); `datetime` instants are
  modelled as rationals measured in minutes, so that
  `now - dp.timeStamp <= timedelta(minutes=d)` becomes `now - ts ≤ (d : ℚ)`.
* Pydantic fields declared with a `None` default are `Option ℚ` / `Option String`.
* A Python `Dict[str, str]` is an association list `List (String × String)`;
  `d['k']` is `List.lookup`, and a missing key raises `PyErr.keyError`.
* Fallible Python code is embedded in `Except PyErr`; list indexing `xs[0]` /
  `xs[1]` goes through `pyGet0` / `pyGet1`, which raise `PyErr.indexError`
  exactly when CPython would.
* The Firestore collaborator of `run_detection` is abstracted by a success
  predicate `appendOk : Nat → Bool` on the position of the incident in the
  detected list: `appendOk i = false` models `collection.add` raising for the
  i-th incident, which the source catches in its per-incident `try/except`.
-/

/-- Python runtime exceptions that the embedded code can raise. -/
inductive PyErr where
  | keyError
  | indexError
  | storeError
deriving DecidableEq

instance {ε α : Type} [DecidableEq ε] [DecidableEq α] : DecidableEq (Except ε α) := fun a b =>
  match a, b with
  | .error e1, .error e2 =>
    if h : e1 = e2 then isTrue (by rw [h]) else isFalse (fun hh => h (Except.error.inj hh))
  | .ok a1, .ok a2 =>
    if h : a1 = a2 then isTrue (by rw [h]) else isFalse (fun hh => h (Except.ok.inj hh))
  | .error _, .ok _ => isFalse (fun hh => Except.noConfusion hh)
  | .ok _, .error _ => isFalse (fun hh => Except.noConfusion hh)

/-- `app/models/metric_data.py` `MetricValue`: one time-series data point.
All numeric fields have default `None` in the Pydantic model, hence `Option`. -/
structure MetricValue where
  timeStamp : Option ℚ
  average : Option ℚ
  count : Option ℚ
  maximum : Option ℚ
  minimum : Option ℚ
  total : Option ℚ
deriving DecidableEq

/-- `MetricTimeSeriesElement`: one time series of a metric. -/
structure MetricTimeSeriesElement where
  data : List MetricValue
deriving DecidableEq

/-- `Metric`: a single named metric; `name` is a `Dict[str, str]`. -/
structure Metric where
  id : String
  name : List (String × String)
  type : String
  unit : String
  timeseries : List MetricTimeSeriesElement
  resourceId : Option String
deriving DecidableEq

/-- `MetricResponse`: the top-level snapshot wrapper. -/
structure MetricResponse where
  value : List Metric
deriving DecidableEq

/-- `incident_detection_service.Incident`; `timestamp` is the detection
instant (the evaluation time), not the breach time. -/
structure Incident where
  incident_type : String
  resource_id : Option String
  timestamp : ℚ
  details : String
  severity : String
deriving DecidableEq

/-- Thresholds and windows fixed in `IncidentDetectionService.__init__`. -/
def cpu_threshold_percent : ℚ := 80
/-- CPU lookback window in minutes (`__init__`). -/
def cpu_duration_minutes : Nat := 5
/-- Memory threshold in GiB (`__init__`). -/
def memory_threshold_gb : ℚ := 2
/-- Memory lookback window in minutes (`__init__`). -/
def memory_duration_minutes : Nat := 5
/-- Network threshold in KBps (`__init__`). -/
def network_threshold_kbps : ℚ := 100
/-- Network lookback window in minutes (`__init__`). -/
def network_duration_minutes : Nat := 5

/-- `IncidentDetectionService._get_recent_average`: mean of the `average`
fields of the points with a present timestamp, a present average, and
`now - timeStamp <= timedelta(minutes=durationMinutes)`; `none` when the
input list is empty or no point qualifies. -/
def get_recent_average (now : ℚ) (durationMinutes : Nat) (dataPoints : List MetricValue) :
    Option ℚ :=
  if dataPoints.isEmpty then none
  else
    let recent : List ℚ := dataPoints.filterMap fun dp =>
      match dp.timeStamp, dp.average with
      | some ts, some a => if now - ts ≤ (durationMinutes : ℚ) then some a else none
      | _, _ => none
    if recent.isEmpty then none
    else some (recent.sum / (recent.length : ℚ))

/-- CPython `xs[0]` on a list: the head, or an `IndexError`. -/
def pyGet0 {α : Type} : List α → Except PyErr α
  | [] => .error .indexError
  | a :: _ => .ok a

/-- CPython `xs[1]` on a list: the second element, or an `IndexError`. -/
def pyGet1 {α : Type} : List α → Except PyErr α
  | [] => .error .indexError
  | [_] => .error .indexError
  | _ :: b :: _ => .ok b

/-- `next((m for m in metrics if m.name['value'] == target), None)`: scans the
metrics left to right, raising `KeyError` when a scanned metric's name
dictionary has no `'value'` key, stopping at the first match. -/
def findByName (target : String) : List Metric → Except PyErr (Option Metric)
  | [] => .ok none
  | m :: rest =>
    match List.lookup "value" m.name with
    | none => .error .keyError
    | some v => if v = target then .ok (some m) else findByName target rest

/-- Two-digit zero-padded decimal rendering of `n % 100`-sized naturals. -/
def natPad2 (n : Nat) : String :=
  (if n < 10 then "0" else "") ++ Nat.repr n

/-- Python `f"{x:.2f}"` on the embedded rationals: two decimal places.  Ties
are rounded half-up (Mathlib `round`); CPython rounds the underlying binary
double half-to-even, which agrees on every value these theorems evaluate. -/
def formatQ2 (q : ℚ) : String :=
  let a : ℤ := round (q * 100)
  (if a < 0 then "-" else "") ++ Nat.repr (a.natAbs / 100) ++ "." ++ natPad2 (a.natAbs % 100)

/-- Python `f"{x}"` = `str(x)` on a float.  The service only interpolates its
threshold constants, which are integral floats (80.0, 2.0, 100.0), so only the
integral branch is ever exercised; the reduced-fraction fallback marks the
unexercised non-integral case. -/
def pyFloatStr (q : ℚ) : String :=
  if q.den = 1 then (if q.num < 0 then "-" else "") ++ Nat.repr q.num.natAbs ++ ".0"
  else toString q

/-- `IncidentDetectionService.detect_cpu_incident`. -/
def detect_cpu_incident (now : ℚ) (cpu_metrics : MetricResponse) :
    Except PyErr (Option Incident) :=
  if cpu_metrics.value.isEmpty then .ok none
  else
    match pyGet0 cpu_metrics.value with
    | .error e => .error e
    | .ok g0 =>
      if g0.timeseries.isEmpty then .ok none
      else
        match pyGet0 cpu_metrics.value with
        | .error e => .error e
        | .ok m0 =>
          match pyGet0 m0.timeseries with
          | .error e => .error e
          | .ok ts0 =>
            match get_recent_average now cpu_duration_minutes ts0.data with
            | some recent_avg_cpu =>
              if recent_avg_cpu ≥ cpu_threshold_percent then
                .ok (some
                  { incident_type := "High CPU Utilization"
                    resource_id := m0.resourceId
                    timestamp := now
                    details := "Average CPU usage (" ++ formatQ2 recent_avg_cpu
                      ++ "%) exceeded threshold (" ++ pyFloatStr cpu_threshold_percent
                      ++ "%) for the last " ++ Nat.repr cpu_duration_minutes ++ " minutes."
                    severity := "High" })
              else .ok none
            | none => .ok none

/-- `IncidentDetectionService.detect_memory_incident`. -/
def detect_memory_incident (now : ℚ) (memory_metrics : MetricResponse) :
    Except PyErr (Option Incident) :=
  if memory_metrics.value.isEmpty then .ok none
  else
    match pyGet0 memory_metrics.value with
    | .error e => .error e
    | .ok g0 =>
      if g0.timeseries.isEmpty then .ok none
      else
        match pyGet0 memory_metrics.value with
        | .error e => .error e
        | .ok m0 =>
          match pyGet0 m0.timeseries with
          | .error e => .error e
          | .ok ts0 =>
            match get_recent_average now memory_duration_minutes ts0.data with
            | some recent_avg_memory_bytes =>
              let recent_avg_memory_gb := recent_avg_memory_bytes / (1024 * 1024 * 1024)
              if recent_avg_memory_gb ≤ memory_threshold_gb then
                .ok (some
                  { incident_type := "Low Available Memory"
                    resource_id := m0.resourceId
                    timestamp := now
                    details := "Average available memory (" ++ formatQ2 recent_avg_memory_gb
                      ++ " GB) fell below threshold (" ++ pyFloatStr memory_threshold_gb
                      ++ " GB) for the last " ++ Nat.repr memory_duration_minutes ++ " minutes."
                    severity := "High" })
              else .ok none
            | none => .ok none

/-- `IncidentDetectionService.detect_network_incident`. -/
def detect_network_incident (now : ℚ) (network_metrics : MetricResponse) :
    Except PyErr (Option Incident) :=
  if network_metrics.value.isEmpty then .ok none
  else if network_metrics.value.length < 2 then .ok none
  else
    match pyGet0 network_metrics.value with
    | .error e => .error e
    | .ok g0 =>
      if g0.timeseries.isEmpty then .ok none
      else
        match pyGet1 network_metrics.value with
        | .error e => .error e
        | .ok g1 =>
          if g1.timeseries.isEmpty then .ok none
          else
            match findByName "Network In Total" network_metrics.value with
            | .error e => .error e
            | .ok optIn =>
              match findByName "Network Out Total" network_metrics.value with
              | .error e => .error e
              | .ok optOut =>
                match optIn, optOut with
                | some network_in_metric, some network_out_metric =>
                  match pyGet0 network_in_metric.timeseries with
                  | .error e => .error e
                  | .ok tsIn =>
                    match pyGet0 network_out_metric.timeseries with
                    | .error e => .error e
                    | .ok tsOut =>
                      match get_recent_average now network_duration_minutes tsIn.data,
                            get_recent_average now network_duration_minutes tsOut.data with
                      | some recent_avg_in_bytes, some recent_avg_out_bytes =>
                        let recent_avg_in_kbps := recent_avg_in_bytes / 1024
                        let recent_avg_out_kbps := recent_avg_out_bytes / 1024
                        let total_traffic_kbps := recent_avg_in_kbps + recent_avg_out_kbps
                        if total_traffic_kbps ≥ network_threshold_kbps then
                          .ok (some
                            { incident_type := "High Network Traffic"
                              resource_id := network_in_metric.resourceId
                              timestamp := now
                              details := "Average total network traffic ("
                                ++ formatQ2 total_traffic_kbps
                                ++ " KBps) exceeded threshold ("
                                ++ pyFloatStr network_threshold_kbps
                                ++ " KBps) for the last "
                                ++ Nat.repr network_duration_minutes
                                ++ " minutes. (In: " ++ formatQ2 recent_avg_in_kbps
                                ++ " KBps, Out: " ++ formatQ2 recent_avg_out_kbps ++ " KBps)"
                              severity := "Medium" })
                        else .ok none
                      | _, _ => .ok none
                | _, _ => .ok none

/-- One `incidents_collection_ref.add(...)` call: the external Firestore
collaborator either succeeds or raises, as prescribed by `appendOk` at the
incident's position in the detected list. -/
def store_append (appendOk : Nat → Bool) (i : Nat) : Except PyErr Unit :=
  if appendOk i then .ok () else .error .storeError

/-- The store loop of `run_detection`: one `add` attempt per incident, each
wrapped in `try/except`; returns (number of attempts, number of caught
store errors). -/
def store_incidents (appendOk : Nat → Bool) : Nat → List Incident → Nat × Nat
  | _, [] => (0, 0)
  | i, _ :: rest =>
    let tail := store_incidents appendOk (i + 1) rest
    match store_append appendOk i with
    | .ok _ => (tail.1 + 1, tail.2)
    | .error _ => (tail.1 + 1, tail.2 + 1)

/-- `IncidentDetectionService.run_detection`: evaluates the CPU, memory and
network rules in that order, collects the fired incidents in evaluation
order, then (when `storeAvailable`, i.e. `incidents_collection_ref` is set)
attempts one store append per incident.  Returns the detected list together
with the attempt count and the caught-store-error count of the store loop. -/
def run_detection (now : ℚ) (storeAvailable : Bool) (appendOk : Nat → Bool)
    (cpu_metrics memory_metrics network_metrics : MetricResponse) :
    Except PyErr (List Incident × Nat × Nat) :=
  match detect_cpu_incident now cpu_metrics with
  | .error e => .error e
  | .ok cpuInc =>
    match detect_memory_incident now memory_metrics with
    | .error e => .error e
    | .ok memInc =>
      match detect_network_incident now network_metrics with
      | .error e => .error e
      | .ok netInc =>
        let detected := cpuInc.toList ++ memInc.toList ++ netInc.toList
        if storeAvailable then
          let r := store_incidents appendOk 0 detected
          .ok (detected, r.1, r.2)
        else .ok (detected, 0, 0)

/-!  Embedding of `backend/app/services/azure_monitor_service.py`.  The raw
Azure SDK response is modelled structurally; the `query_resource` call is the
external collaborator, abstracted as an `Except FetchErr AzureResponse`
argument: `.error` models the SDK raising (transport/auth/quota), which the
source catches with a blanket `except Exception`. -/

/-- Collaborator failure modes of the metrics client. -/
inductive FetchErr where
  | transport
  | auth
  | quota
deriving DecidableEq

/-- One raw data point of the Azure SDK response. -/
structure AzurePoint where
  timestamp : Option ℚ
  average : Option ℚ
  count : Option ℚ
  maximum : Option ℚ
  minimum : Option ℚ
  total : Option ℚ
deriving DecidableEq

/-- One raw time series of the Azure SDK response. -/
structure AzureTimeSeries where
  data : List AzurePoint
deriving DecidableEq

/-- One raw metric of the Azure SDK response.  Its `name`, after the
source's `metric.name.value if hasattr(metric.name, 'value') else metric.name`
extraction, is either a plain (non-dict) value or already a dict. -/
structure AzureMetric where
  id : String
  name : String ⊕ List (String × String)
  type : String
  unit : String
  timeseries : List AzureTimeSeries
deriving DecidableEq

/-- The raw Azure SDK response of one `query_resource` call. -/
structure AzureResponse where
  metrics : List AzureMetric
deriving DecidableEq

/-- The name normalization inside `_process_metric_response`: a non-dict name
is wrapped as `{"value": str(x), "localizedValue": str(x)}`. -/
def normalizeName : String ⊕ List (String × String) → List (String × String)
  | .inl s => [("value", s), ("localizedValue", s)]
  | .inr d => d

/-- `AzureMonitorService._process_metric_response`. -/
def process_metric_response (resp : AzureResponse) (resourceUri : String) : MetricResponse :=
  MetricResponse.mk <| resp.metrics.map fun metric =>
    { id := metric.id
      name := normalizeName metric.name
      type := metric.type
      unit := metric.unit
      timeseries := metric.timeseries.map fun ts =>
        MetricTimeSeriesElement.mk <| ts.data.map fun dp =>
          { timeStamp := dp.timestamp
            average := dp.average
            count := dp.count
            maximum := dp.maximum
            minimum := dp.minimum
            total := dp.total }
      resourceId := some resourceUri }

/-- `AzureMonitorService.get_vm_cpu_metrics`: the whole body is wrapped in
`try/except Exception`, and the handler returns `MetricResponse(value=[])`. -/
def get_vm_cpu_metrics (resourceUri : String)
    (query : Except FetchErr AzureResponse) : MetricResponse :=
  match query with
  | .ok response => process_metric_response response resourceUri
  | .error _ => MetricResponse.mk []

/-- `AzureMonitorService.get_vm_memory_metrics`: same blanket handler. -/
def get_vm_memory_metrics (resourceUri : String)
    (query : Except FetchErr AzureResponse) : MetricResponse :=
  match query with
  | .ok response => process_metric_response response resourceUri
  | .error _ => MetricResponse.mk []

/-- `AzureMonitorService.get_vm_network_metrics`: same blanket handler. -/
def get_vm_network_metrics (resourceUri : String)
    (query : Except FetchErr AzureResponse) : MetricResponse :=
  match query with
  | .ok response => process_metric_response response resourceUri
  | .error _ => MetricResponse.mk []

/-!  Spec-side vocabulary used to state the claims. -/

/-- A point qualifies for the window of `_get_recent_average`: timestamp
present, average present, and `now - ts ≤ durationMinutes`. -/
def qualifies (now : ℚ) (durationMinutes : Nat) (dp : MetricValue) : Bool :=
  match dp.timeStamp, dp.average with
  | some ts, some _ => decide (now - ts ≤ (durationMinutes : ℚ))
  | _, _ => false

/-- The `average` fields of the qualifying points, in order. -/
def qualifyingAverages (now : ℚ) (durationMinutes : Nat) (dataPoints : List MetricValue) :
    List ℚ :=
  (dataPoints.filter (qualifies now durationMinutes)).filterMap (·.average)

theorem qualifyingAverages_nil (now : ℚ) (w : Nat) : qualifyingAverages now w [] = [] := rfl

theorem qualifies_ts_none {now : ℚ} {w : Nat} {dp : MetricValue} (h : dp.timeStamp = none) :
    qualifies now w dp = false := by
  unfold qualifies
  rw [h]

theorem qualifies_av_none {now : ℚ} {w : Nat} {dp : MetricValue} (h : dp.average = none) :
    qualifies now w dp = false := by
  unfold qualifies
  rw [h]
  rcases dp.timeStamp with _ | ts <;> rfl

theorem qualifies_some_some {now : ℚ} {w : Nat} {dp : MetricValue} {ts a : ℚ}
    (h1 : dp.timeStamp = some ts) (h2 : dp.average = some a) :
    qualifies now w dp = decide (now - ts ≤ (w : ℚ)) := by
  unfold qualifies
  rw [h1, h2]

theorem exists_average_of_qualifies {now : ℚ} {w : Nat} {dp : MetricValue}
    (h : qualifies now w dp = true) : ∃ a, dp.average = some a := by
  rcases hav : dp.average with _ | a
  · rw [qualifies_av_none hav] at h
    exact absurd h (by decide)
  · exact ⟨a, rfl⟩

theorem qualifyingAverages_cons_false {now : ℚ} {w : Nat} {dp : MetricValue}
    {rest : List MetricValue} (h : qualifies now w dp = false) :
    qualifyingAverages now w (dp :: rest) = qualifyingAverages now w rest := by
  unfold qualifyingAverages
  rw [List.filter_cons, h]
  rfl

theorem qualifyingAverages_cons_true {now : ℚ} {w : Nat} {dp : MetricValue}
    {rest : List MetricValue} {a : ℚ} (h : qualifies now w dp = true)
    (hav : dp.average = some a) :
    qualifyingAverages now w (dp :: rest) = a :: qualifyingAverages now w rest := by
  unfold qualifyingAverages
  rw [List.filter_cons, h, if_pos rfl, List.filterMap_cons, hav]

theorem filterMap_recent_eq (now : ℚ) (w : Nat) (pts : List MetricValue) :
    (pts.filterMap fun dp =>
      match dp.timeStamp, dp.average with
      | some ts, some a => if now - ts ≤ (w : ℚ) then some a else none
      | _, _ => none) = qualifyingAverages now w pts := by
  induction pts with
  | nil => rfl
  | cons dp rest ih =>
    rw [List.filterMap_cons]
    rcases hts : dp.timeStamp with _ | ts
    · simp only [hts]
      rw [qualifyingAverages_cons_false (qualifies_ts_none hts)]
      exact ih
    · rcases hav : dp.average with _ | a
      · simp only [hts, hav]
        rw [qualifyingAverages_cons_false (qualifies_av_none hav)]
        exact ih
      · by_cases hcond : now - ts ≤ (w : ℚ)
        · simp only [hts, hav, if_pos hcond]
          rw [qualifyingAverages_cons_true
            ((qualifies_some_some hts hav).trans (decide_eq_true hcond)) hav, ih]
        · simp only [hts, hav, if_neg hcond]
          rw [qualifyingAverages_cons_false
            ((qualifies_some_some hts hav).trans (decide_eq_false hcond))]
          exact ih

theorem get_recent_average_eq (now : ℚ) (w : Nat) (pts : List MetricValue) :
    get_recent_average now w pts =
      if pts.isEmpty then none
      else if qualifyingAverages now w pts = [] then none
      else some ((qualifyingAverages now w pts).sum /
        ((qualifyingAverages now w pts).length : ℚ)) := by
  simp only [get_recent_average, filterMap_recent_eq, List.isEmpty_iff]

theorem qualifyingAverages_eq_nil_iff (now : ℚ) (w : Nat) (pts : List MetricValue) :
    qualifyingAverages now w pts = [] ↔ ∀ dp ∈ pts, qualifies now w dp = false := by
  induction pts with
  | nil => simp [qualifyingAverages_nil]
  | cons dp rest ih =>
    by_cases hq : qualifies now w dp = true
    · rcases exists_average_of_qualifies hq with ⟨a, hav⟩
      rw [qualifyingAverages_cons_true hq hav]
      constructor
      · intro h
        exact absurd h (List.cons_ne_nil a _)
      · intro hall
        have hdp := hall dp (List.mem_cons_self dp rest)
        rw [hq] at hdp
        exact absurd hdp (by decide)
    · have hq' : qualifies now w dp = false := Bool.eq_false_iff.mpr hq
      rw [qualifyingAverages_cons_false hq', ih]
      constructor
      · intro hall dp' hdp'
        rcases List.mem_cons.mp hdp' with h1 | h1
        · rw [h1]
          exact hq'
        · exact hall dp' h1
      · intro hall dp' hdp'
        exact hall dp' (List.mem_cons_of_mem _ hdp')

/-- C1: `_get_recent_average` returns the arithmetic mean of exactly the
`average` fields of the points whose timestamp is present, whose `average` is
present and which satisfy `now - timestamp ≤ windowMinutes`; it returns no
value (`none`) exactly when no point qualifies (in particular on the empty
list), and the result depends only on the qualifying points, so it is
unaffected by points outside the window or with a null `average`. -/
theorem recent_average_spec (now : ℚ) (w : Nat) (pts : List MetricValue) :
    (get_recent_average now w pts = none ↔ ∀ dp ∈ pts, qualifies now w dp = false) ∧
    (qualifyingAverages now w pts ≠ [] →
      get_recent_average now w pts =
        some ((qualifyingAverages now w pts).sum /
          ((qualifyingAverages now w pts).length : ℚ))) ∧
    get_recent_average now w pts = get_recent_average now w (pts.filter (qualifies now w)) := by
  refine ⟨?_, ?_, ?_⟩
  · rw [get_recent_average_eq, ← qualifyingAverages_eq_nil_iff now w pts]
    constructor
    · intro h
      by_cases he : pts.isEmpty = true
      · rw [List.isEmpty_iff.mp he]
        exact qualifyingAverages_nil now w
      · rw [if_neg he] at h
        by_cases hq : qualifyingAverages now w pts = []
        · exact hq
        · rw [if_neg hq] at h
          exact absurd h (by simp)
    · intro hq
      rw [if_pos hq]
      by_cases he : pts.isEmpty = true
      · rw [if_pos he]
      · rw [if_neg he]
  · intro hne
    rw [get_recent_average_eq]
    have he : pts.isEmpty = false := by
      rcases pts with _ | ⟨dp, rest⟩
      · exact absurd (qualifyingAverages_nil now w) hne
      · rfl
    rw [he]
    simp only [Bool.false_eq_true, if_false, if_neg hne]
  · rw [get_recent_average_eq, get_recent_average_eq]
    have hqq : qualifyingAverages now w (pts.filter (qualifies now w))
        = qualifyingAverages now w pts := by
      unfold qualifyingAverages
      rw [List.filter_filter]
      simp only [Bool.and_self]
    rw [hqq]
    by_cases hq : qualifyingAverages now w pts = []
    · simp only [if_pos hq, ite_self]
    · have h1 : pts.isEmpty = false := by
        rcases pts with _ | ⟨dp, rest⟩
        · exact absurd (qualifyingAverages_nil now w) hq
        · rfl
      have h2 : (pts.filter (qualifies now w)).isEmpty = false := by
        rcases hf : pts.filter (qualifies now w) with _ | ⟨dp, rest⟩
        · refine absurd ?_ hq
          rw [← hqq]
          unfold qualifyingAverages
          rw [List.filter_filter, ← List.filter_filter, hf]
          rfl
        · rfl
      rw [h1, h2]

/-- C1 witness: at `now = 0`, window 5, with one in-window point of average 85
and one point 10 minutes old (outside the window), the mean is 85. -/
theorem recent_average_spec_witness :
    get_recent_average 0 5
      [MetricValue.mk (some 0) (some 85) none none none none,
       MetricValue.mk (some (-10)) (some 20) none none none none] = some 85 := by
  have h := (recent_average_spec 0 5
      [MetricValue.mk (some 0) (some 85) none none none none,
       MetricValue.mk (some (-10)) (some 20) none none none none]).2.1
  have hqa : qualifyingAverages 0 5
      [MetricValue.mk (some 0) (some 85) none none none none,
       MetricValue.mk (some (-10)) (some 20) none none none none] = [85] := by
    unfold qualifyingAverages qualifies
    norm_num [List.filter_cons, List.filterMap_cons]
  rw [h (by rw [hqa]; exact List.cons_ne_nil _ _), hqa]
  norm_num

/-- C10: `_get_recent_average` is invariant under permutations of its input
list, even though its docstring assumes the points are sorted by timestamp. -/
theorem recent_average_perm_invariant (now : ℚ) (w : Nat) {l1 l2 : List MetricValue}
    (h : l1.Perm l2) :
    get_recent_average now w l1 = get_recent_average now w l2 := by
  have hq : (qualifyingAverages now w l1).Perm (qualifyingAverages now w l2) :=
    List.Perm.filterMap _ (List.Perm.filter _ h)
  have hempty : l1.isEmpty = l2.isEmpty := by
    rcases l1 with _ | ⟨a, l⟩ <;> rcases l2 with _ | ⟨b, m⟩ <;> simp_all
  have hsum := hq.sum_eq
  have hlen := hq.length_eq
  have hnil : (qualifyingAverages now w l1 = []) ↔ (qualifyingAverages now w l2 = []) := by
    constructor <;> intro hh
    · exact List.nil_perm.mp (hh ▸ hq)
    · exact List.perm_nil.mp (hh ▸ hq)
  rw [get_recent_average_eq, get_recent_average_eq, hempty, hsum, hlen]
  by_cases he : l2.isEmpty = true
  · rw [if_pos he, if_pos he]
  · rw [if_neg he, if_neg he]
    by_cases h2 : qualifyingAverages now w l2 = []
    · rw [if_pos (hnil.mpr h2), if_pos h2]
    · rw [if_neg (fun hh => h2 (hnil.mp hh)), if_neg h2]

/-- C10 witness: swapping two concrete points leaves the result unchanged. -/
theorem recent_average_perm_invariant_witness :
    get_recent_average 0 5
      [MetricValue.mk (some 0) (some 10) none none none none,
       MetricValue.mk (some 1) (some 30) none none none none] =
    get_recent_average 0 5
      [MetricValue.mk (some 1) (some 30) none none none none,
       MetricValue.mk (some 0) (some 10) none none none none] :=
  recent_average_perm_invariant 0 5
    (List.Perm.swap (MetricValue.mk (some 1) (some 30) none none none none)
      (MetricValue.mk (some 0) (some 10) none none none none) [])

/-- The incident built by the firing branch of `detect_cpu_incident`. -/
def cpuIncidentOf (now : ℚ) (m : Metric) (a : ℚ) : Incident :=
  { incident_type := "High CPU Utilization"
    resource_id := m.resourceId
    timestamp := now
    details := "Average CPU usage (" ++ formatQ2 a ++ "%) exceeded threshold ("
      ++ pyFloatStr cpu_threshold_percent ++ "%) for the last "
      ++ Nat.repr cpu_duration_minutes ++ " minutes."
    severity := "High" }

/-- The incident built by the firing branch of `detect_memory_incident`;
`a` is the recent average in bytes. -/
def memIncidentOf (now : ℚ) (m : Metric) (a : ℚ) : Incident :=
  { incident_type := "Low Available Memory"
    resource_id := m.resourceId
    timestamp := now
    details := "Average available memory (" ++ formatQ2 (a / (1024 * 1024 * 1024))
      ++ " GB) fell below threshold (" ++ pyFloatStr memory_threshold_gb
      ++ " GB) for the last " ++ Nat.repr memory_duration_minutes ++ " minutes."
    severity := "High" }

/-- The incident built by the firing branch of `detect_network_incident`;
`bin`/`bout` are the recent averages in bytes of the in/out series. -/
def netIncidentOf (now : ℚ) (m : Metric) (bin bout : ℚ) : Incident :=
  { incident_type := "High Network Traffic"
    resource_id := m.resourceId
    timestamp := now
    details := "Average total network traffic (" ++ formatQ2 (bin / 1024 + bout / 1024)
      ++ " KBps) exceeded threshold (" ++ pyFloatStr network_threshold_kbps
      ++ " KBps) for the last " ++ Nat.repr network_duration_minutes
      ++ " minutes. (In: " ++ formatQ2 (bin / 1024) ++ " KBps, Out: "
      ++ formatQ2 (bout / 1024) ++ " KBps)"
    severity := "Medium" }

theorem detect_cpu_incident_char (now : ℚ) (cpu : MetricResponse) (m : Metric)
    (rest : List Metric) (t : MetricTimeSeriesElement) (tr : List MetricTimeSeriesElement)
    (hv : cpu.value = m :: rest) (hts : m.timeseries = t :: tr) :
    detect_cpu_incident now cpu =
      match get_recent_average now cpu_duration_minutes t.data with
      | some a => if a ≥ cpu_threshold_percent then .ok (some (cpuIncidentOf now m a))
        else .ok none
      | none => .ok none := by
  simp only [detect_cpu_incident, hv, hts, List.isEmpty_cons, Bool.false_eq_true, if_false,
    pyGet0, cpuIncidentOf]

theorem detect_memory_incident_char (now : ℚ) (mem : MetricResponse) (m : Metric)
    (rest : List Metric) (t : MetricTimeSeriesElement) (tr : List MetricTimeSeriesElement)
    (hv : mem.value = m :: rest) (hts : m.timeseries = t :: tr) :
    detect_memory_incident now mem =
      match get_recent_average now memory_duration_minutes t.data with
      | some a => if a / (1024 * 1024 * 1024) ≤ memory_threshold_gb then
          .ok (some (memIncidentOf now m a))
        else .ok none
      | none => .ok none := by
  simp only [detect_memory_incident, hv, hts, List.isEmpty_cons, Bool.false_eq_true, if_false,
    pyGet0, memIncidentOf]

theorem detect_network_incident_char (now : ℚ) (net : MetricResponse)
    (m0 m1 : Metric) (rest2 : List Metric)
    (t0 t1 : MetricTimeSeriesElement)
    (tr0 tr1 : List MetricTimeSeriesElement)
    (mi mo : Metric) (ti tu : MetricTimeSeriesElement)
    (tri tru : List MetricTimeSeriesElement)
    (hv : net.value = m0 :: m1 :: rest2)
    (ht0 : m0.timeseries = t0 :: tr0) (ht1 : m1.timeseries = t1 :: tr1)
    (hin : findByName "Network In Total" net.value = .ok (some mi))
    (hout : findByName "Network Out Total" net.value = .ok (some mo))
    (hti : mi.timeseries = ti :: tri) (htu : mo.timeseries = tu :: tru) :
    detect_network_incident now net =
      match get_recent_average now network_duration_minutes ti.data,
            get_recent_average now network_duration_minutes tu.data with
      | some bin, some bout =>
        if bin / 1024 + bout / 1024 ≥ network_threshold_kbps then
          .ok (some (netIncidentOf now mi bin bout))
        else .ok none
      | _, _ => .ok none := by
  simp only [detect_network_incident, hv, List.isEmpty_cons, Bool.false_eq_true, if_false,
    List.length_cons, pyGet0, pyGet1, ht0, ht1]
  rw [if_neg (by omega)]
  rw [hv] at hin hout
  simp only [hin, hout, hti, htu, pyGet0, netIncidentOf]

/-- A data point recorded at instant 0 with the given average. -/
def samplePoint (av : ℚ) : MetricValue :=
  MetricValue.mk (some 0) (some av) none none none none

/-- A one-series metric named `nm` whose single point has average `av`. -/
def sampleMetric (nm : String) (av : ℚ) : Metric :=
  Metric.mk "m-id" [("value", nm), ("localizedValue", nm)] "Microsoft.Insights/metrics"
    "Percent" [MetricTimeSeriesElement.mk [samplePoint av]] (some "vm-1")

theorem get_recent_average_samplePoint (w : Nat) (av : ℚ) :
    get_recent_average 0 w [samplePoint av] = some av := by
  have hqual : qualifies 0 w (samplePoint av) = true :=
    (qualifies_some_some rfl rfl).trans (decide_eq_true (by
      rw [sub_zero]
      exact Nat.cast_nonneg w))
  have hqa : qualifyingAverages 0 w [samplePoint av] = [av] :=
    qualifyingAverages_cons_true hqual rfl
  rw [get_recent_average_eq, hqa]
  norm_num

/-- C7: with a defined recent window average `a`, the CPU rule fires exactly
when `a ≥ cpu_threshold_percent` (the default 80), producing a High-severity
"High CPU Utilization" incident; strictly below the threshold it yields no
incident. -/
theorem cpu_rule_threshold (now a : ℚ) (cpu : MetricResponse) (m : Metric)
    (rest : List Metric) (t : MetricTimeSeriesElement) (tr : List MetricTimeSeriesElement)
    (hv : cpu.value = m :: rest) (hts : m.timeseries = t :: tr)
    (ha : get_recent_average now cpu_duration_minutes t.data = some a) :
    cpu_threshold_percent = 80 ∧
    (a ≥ cpu_threshold_percent →
      detect_cpu_incident now cpu = .ok (some (cpuIncidentOf now m a))) ∧
    (a < cpu_threshold_percent → detect_cpu_incident now cpu = .ok none) ∧
    (cpuIncidentOf now m a).severity = "High" ∧
    (cpuIncidentOf now m a).incident_type = "High CPU Utilization" := by
  rw [detect_cpu_incident_char now cpu m rest t tr hv hts, ha]
  refine ⟨rfl, ?_, ?_, rfl, rfl⟩
  · intro hge
    exact if_pos hge
  · intro hlt
    exact if_neg (not_le.mpr hlt)

/-- C7 witness: a single in-window CPU average of 85 fires the rule, and a
single in-window average of 70 does not. -/
theorem cpu_rule_threshold_witness :
    detect_cpu_incident 0 (MetricResponse.mk [sampleMetric "Percentage CPU" 85]) =
      .ok (some (cpuIncidentOf 0 (sampleMetric "Percentage CPU" 85) 85)) ∧
    detect_cpu_incident 0 (MetricResponse.mk [sampleMetric "Percentage CPU" 70]) =
      .ok none := by
  constructor
  · exact (cpu_rule_threshold 0 85 (MetricResponse.mk [sampleMetric "Percentage CPU" 85])
      (sampleMetric "Percentage CPU" 85) [] (MetricTimeSeriesElement.mk [samplePoint 85]) []
      rfl rfl (get_recent_average_samplePoint 5 85)).2.1 (by norm_num [cpu_threshold_percent])
  · exact (cpu_rule_threshold 0 70 (MetricResponse.mk [sampleMetric "Percentage CPU" 70])
      (sampleMetric "Percentage CPU" 70) [] (MetricTimeSeriesElement.mk [samplePoint 70]) []
      rfl rfl (get_recent_average_samplePoint 5 70)).2.2.1 (by norm_num [cpu_threshold_percent])

/-- C8: with a defined recent window average `a` in bytes, the memory rule
converts `a` to GiB (division by 1024³) before the comparison and fires
exactly when the converted value is ≤ `memory_threshold_gb` (the default 2):
the comparator is inverted relative to CPU/network — a low value triggers. -/
theorem memory_rule_threshold (now a : ℚ) (mem : MetricResponse) (m : Metric)
    (rest : List Metric) (t : MetricTimeSeriesElement) (tr : List MetricTimeSeriesElement)
    (hv : mem.value = m :: rest) (hts : m.timeseries = t :: tr)
    (ha : get_recent_average now memory_duration_minutes t.data = some a) :
    memory_threshold_gb = 2 ∧
    (a / (1024 * 1024 * 1024) ≤ memory_threshold_gb →
      detect_memory_incident now mem = .ok (some (memIncidentOf now m a))) ∧
    (a / (1024 * 1024 * 1024) > memory_threshold_gb →
      detect_memory_incident now mem = .ok none) ∧
    (memIncidentOf now m a).severity = "High" ∧
    (memIncidentOf now m a).incident_type = "Low Available Memory" := by
  rw [detect_memory_incident_char now mem m rest t tr hv hts, ha]
  refine ⟨rfl, ?_, ?_, rfl, rfl⟩
  · intro hle
    exact if_pos hle
  · intro hgt
    exact if_neg (not_le.mpr hgt)

/-- C8 witness: an available-memory average of 1.5 GiB (1610612736 bytes)
fires the rule; an average of 4 GiB (4294967296 bytes) does not. -/
theorem memory_rule_threshold_witness :
    detect_memory_incident 0 (MetricResponse.mk [sampleMetric "Available Memory Bytes"
        1610612736]) =
      .ok (some (memIncidentOf 0 (sampleMetric "Available Memory Bytes" 1610612736)
        1610612736)) ∧
    detect_memory_incident 0 (MetricResponse.mk [sampleMetric "Available Memory Bytes"
        4294967296]) = .ok none := by
  constructor
  · exact (memory_rule_threshold 0 1610612736
      (MetricResponse.mk [sampleMetric "Available Memory Bytes" 1610612736])
      (sampleMetric "Available Memory Bytes" 1610612736) []
      (MetricTimeSeriesElement.mk [samplePoint 1610612736]) []
      rfl rfl (get_recent_average_samplePoint 5 1610612736)).2.1
      (by norm_num [memory_threshold_gb])
  · exact (memory_rule_threshold 0 4294967296
      (MetricResponse.mk [sampleMetric "Available Memory Bytes" 4294967296])
      (sampleMetric "Available Memory Bytes" 4294967296) []
      (MetricTimeSeriesElement.mk [samplePoint 4294967296]) []
      rfl rfl (get_recent_average_samplePoint 5 4294967296)).2.2.1
      (by norm_num [memory_threshold_gb])

/-- `needle` occurs at the start of `hay` (character lists). -/
def listHasPre : List Char → List Char → Bool
  | [], _ => true
  | _ :: _, [] => false
  | a :: as, b :: bs => a == b && listHasPre as bs

/-- `needle` occurs somewhere inside `hay` (character lists). -/
def listHasSub (needle : List Char) : List Char → Bool
  | [] => listHasPre needle []
  | c :: rest => listHasPre needle (c :: rest) || listHasSub needle rest

/-- Python `needle in hay` on strings. -/
def strContains (hay needle : String) : Bool :=
  listHasSub needle.data hay.data

theorem listHasPre_self_append (s t : List Char) : listHasPre s (s ++ t) = true := by
  induction s with
  | nil => rfl
  | cons a as ih => simp [listHasPre, ih]

theorem listHasSub_self_append (s t : List Char) : listHasSub s (s ++ t) = true := by
  rcases s with _ | ⟨a, as⟩
  · rcases t with _ | ⟨b, bs⟩ <;> rfl
  · show (listHasPre (a :: as) ((a :: as) ++ t) || listHasSub (a :: as) (as ++ t)) = true
    rw [listHasPre_self_append]
    rfl

theorem listHasSub_append_left (s t x : List Char) (h : listHasSub s t = true) :
    listHasSub s (x ++ t) = true := by
  induction x with
  | nil => exact h
  | cons c cs ih =>
    show (listHasPre s (c :: (cs ++ t)) || listHasSub s (cs ++ t)) = true
    rw [ih]
    simp

theorem listHasSub_middle (x s y : List Char) : listHasSub s (x ++ (s ++ y)) = true :=
  listHasSub_append_left s (s ++ y) x (listHasSub_self_append s y)

theorem strContains_append_middle (x s y : String) : strContains (x ++ s ++ y) s = true := by
  unfold strContains
  simp only [String.data_append, List.append_assoc]
  exact listHasSub_middle x.data s.data y.data

theorem strContains_append_left (x t : String) (s : String)
    (h : strContains t s = true) : strContains (x ++ t) s = true := by
  unfold strContains at h ⊢
  simp only [String.data_append]
  exact listHasSub_append_left s.data t.data x.data h

theorem listHasSub_nil_any (t : List Char) : listHasSub [] t = true := by
  rcases t with _ | ⟨c, r⟩ <;> rfl

theorem listHasPre_append_right (s t x : List Char) (h : listHasPre s t = true) :
    listHasPre s (t ++ x) = true := by
  induction s generalizing t with
  | nil => rfl
  | cons a as ih =>
    rcases t with _ | ⟨b, bs⟩
    · exact absurd h (by simp [listHasPre])
    · have h' : (a == b && listHasPre as bs) = true := h
      rcases Bool.and_eq_true_iff.mp h' with ⟨h1, h2⟩
      show (a == b && listHasPre as (bs ++ x)) = true
      rw [h1, ih bs h2]
      rfl

theorem listHasSub_append_right (s t x : List Char) (h : listHasSub s t = true) :
    listHasSub s (t ++ x) = true := by
  induction t with
  | nil =>
    rcases s with _ | ⟨a, as⟩
    · exact listHasSub_nil_any x
    · exact absurd h (by simp [listHasSub, listHasPre])
  | cons c cs ih =>
    have h' : (listHasPre s (c :: cs) || listHasSub s cs) = true := h
    show (listHasPre s (c :: (cs ++ x)) || listHasSub s (cs ++ x)) = true
    rcases Bool.or_eq_true_iff.mp h' with h1 | h1
    · rw [show (c :: (cs ++ x) : List Char) = (c :: cs) ++ x from rfl,
        listHasPre_append_right s (c :: cs) x h1]
      rfl
    · rw [ih h1]
      simp

theorem listHasSub_of_pre (s t : List Char) (h : listHasPre s t = true) :
    listHasSub s t = true := by
  rcases t with _ | ⟨c, r⟩
  · exact h
  · show (listHasPre s (c :: r) || listHasSub s r) = true
    rw [h]
    rfl

theorem strContains_append_right (t x s : String) (h : strContains t s = true) :
    strContains (t ++ x) s = true := by
  unfold strContains at h ⊢
  simp only [String.data_append]
  exact listHasSub_append_right s.data t.data x.data h

/-- A needle of the form `f ++ P` occurs in `(A ++ f) ++ (P ++ S)`. -/
theorem strContains_mid (A f P S : String) :
    strContains ((A ++ f) ++ (P ++ S)) (f ++ P) = true := by
  rw [String.append_assoc]
  apply strContains_append_left
  unfold strContains
  simp only [String.data_append]
  apply listHasSub_of_pre
  have h := listHasPre_self_append (f.data ++ P.data) S.data
  rw [List.append_assoc] at h
  exact h

theorem formatQ2_85 : formatQ2 85 = "85.00" := by
  have h : round ((85 : ℚ) * 100) = 8500 := by norm_num [round_eq]
  unfold formatQ2
  rw [h]
  rfl

theorem formatQ2_gb15 : formatQ2 ((1610612736 : ℚ) / (1024 * 1024 * 1024)) = "1.50" := by
  have h : round (((1610612736 : ℚ) / (1024 * 1024 * 1024)) * 100) = 150 := by
    norm_num [round_eq]
  unfold formatQ2
  rw [h]
  rfl

theorem cpu_details_decomp (now : ℚ) (m : Metric) (a : ℚ) :
    (cpuIncidentOf now m a).details =
      ("Average CPU usage (" ++ formatQ2 a) ++
        "%) exceeded threshold (80.0%) for the last 5 minutes." := by
  show ((((("Average CPU usage (" ++ formatQ2 a) ++ "%) exceeded threshold (") ++ "80.0")
      ++ "%) for the last ") ++ "5") ++ " minutes." = _
  rw [String.append_assoc, String.append_assoc, String.append_assoc, String.append_assoc]
  congr 1

theorem mem_details_decomp (now : ℚ) (m : Metric) (a : ℚ) :
    (memIncidentOf now m a).details =
      ("Average available memory (" ++ formatQ2 (a / (1024 * 1024 * 1024))) ++
        " GB) fell below threshold (2.0 GB) for the last 5 minutes." := by
  show ((((("Average available memory (" ++ formatQ2 (a / (1024 * 1024 * 1024)))
      ++ " GB) fell below threshold (") ++ "2.0") ++ " GB) for the last ") ++ "5")
      ++ " minutes." = _
  rw [String.append_assoc, String.append_assoc, String.append_assoc, String.append_assoc]
  congr 1

theorem cpu_details_contains (now : ℚ) (m : Metric) (a : ℚ) :
    strContains (cpuIncidentOf now m a).details (formatQ2 a ++ "%") = true ∧
    strContains (cpuIncidentOf now m a).details "(80.0%)" = true ∧
    strContains (cpuIncidentOf now m a).details "5 minutes" = true := by
  rw [cpu_details_decomp]
  refine ⟨?_, ?_, ?_⟩
  · exact strContains_mid "Average CPU usage (" (formatQ2 a) "%"
      ") exceeded threshold (80.0%) for the last 5 minutes."
  · apply strContains_append_left
    decide
  · apply strContains_append_left
    decide

theorem mem_details_contains (now : ℚ) (m : Metric) (a : ℚ) :
    strContains (memIncidentOf now m a).details
      (formatQ2 (a / (1024 * 1024 * 1024)) ++ " GB") = true ∧
    strContains (memIncidentOf now m a).details "(2.0 GB)" = true ∧
    strContains (memIncidentOf now m a).details "5 minutes" = true := by
  rw [mem_details_decomp]
  refine ⟨?_, ?_, ?_⟩
  · exact strContains_mid "Average available memory ("
      (formatQ2 (a / (1024 * 1024 * 1024))) " GB"
      ") fell below threshold (2.0 GB) for the last 5 minutes."
  · apply strContains_append_left
    decide
  · apply strContains_append_left
    decide

theorem net_details_contains (now : ℚ) (m : Metric) (bin bout : ℚ) :
    strContains (netIncidentOf now m bin bout).details
      (formatQ2 (bin / 1024 + bout / 1024) ++ " KBps") = true ∧
    strContains (netIncidentOf now m bin bout).details "(100.0 KBps)" = true ∧
    strContains (netIncidentOf now m bin bout).details "5 minutes" = true := by
  refine ⟨?_, ?_, ?_⟩
  · show strContains (((((((((("Average total network traffic ("
        ++ formatQ2 (bin / 1024 + bout / 1024)) ++ " KBps) exceeded threshold (")
        ++ "100.0") ++ " KBps) for the last ") ++ "5") ++ " minutes. (In: ")
        ++ formatQ2 (bin / 1024)) ++ " KBps, Out: ") ++ formatQ2 (bout / 1024))
        ++ " KBps)") (formatQ2 (bin / 1024 + bout / 1024) ++ " KBps") = true
    apply strContains_append_right
    apply strContains_append_right
    apply strContains_append_right
    apply strContains_append_right
    apply strContains_append_right
    apply strContains_append_right
    apply strContains_append_right
    apply strContains_append_right
    exact strContains_mid "Average total network traffic ("
      (formatQ2 (bin / 1024 + bout / 1024)) " KBps" ") exceeded threshold ("
  · show strContains (((((((((("Average total network traffic ("
        ++ formatQ2 (bin / 1024 + bout / 1024)) ++ " KBps) exceeded threshold (")
        ++ "100.0") ++ " KBps) for the last ") ++ "5") ++ " minutes. (In: ")
        ++ formatQ2 (bin / 1024)) ++ " KBps, Out: ") ++ formatQ2 (bout / 1024))
        ++ " KBps)") "(100.0 KBps)" = true
    apply strContains_append_right
    apply strContains_append_right
    apply strContains_append_right
    apply strContains_append_right
    apply strContains_append_right
    apply strContains_append_right
    rw [String.append_assoc, String.append_assoc]
    apply strContains_append_left
    decide
  · show strContains (((((((((("Average total network traffic ("
        ++ formatQ2 (bin / 1024 + bout / 1024)) ++ " KBps) exceeded threshold (")
        ++ "100.0") ++ " KBps) for the last ") ++ "5") ++ " minutes. (In: ")
        ++ formatQ2 (bin / 1024)) ++ " KBps, Out: ") ++ formatQ2 (bout / 1024))
        ++ " KBps)") "5 minutes" = true
    apply strContains_append_right
    apply strContains_append_right
    apply strContains_append_right
    apply strContains_append_right
    rw [String.append_assoc, String.append_assoc, String.append_assoc, String.append_assoc]
    apply strContains_append_left
    decide

theorem detect_cpu_sample85 :
    detect_cpu_incident 0 (MetricResponse.mk [sampleMetric "Percentage CPU" 85]) =
      .ok (some (cpuIncidentOf 0 (sampleMetric "Percentage CPU" 85) 85)) := by
  rw [detect_cpu_incident_char 0 (MetricResponse.mk [sampleMetric "Percentage CPU" 85])
      (sampleMetric "Percentage CPU" 85) [] (MetricTimeSeriesElement.mk [samplePoint 85]) []
      rfl rfl,
    show get_recent_average 0 cpu_duration_minutes
        (MetricTimeSeriesElement.mk [samplePoint 85]).data = some 85
      from get_recent_average_samplePoint 5 85]
  exact if_pos (by norm_num [cpu_threshold_percent])

theorem detect_memory_sample15 :
    detect_memory_incident 0
        (MetricResponse.mk [sampleMetric "Available Memory Bytes" 1610612736]) =
      .ok (some (memIncidentOf 0 (sampleMetric "Available Memory Bytes" 1610612736)
        1610612736)) := by
  rw [detect_memory_incident_char 0
      (MetricResponse.mk [sampleMetric "Available Memory Bytes" 1610612736])
      (sampleMetric "Available Memory Bytes" 1610612736) []
      (MetricTimeSeriesElement.mk [samplePoint 1610612736]) [] rfl rfl,
    show get_recent_average 0 memory_duration_minutes
        (MetricTimeSeriesElement.mk [samplePoint 1610612736]).data = some 1610612736
      from get_recent_average_samplePoint 5 1610612736]
  exact if_pos (by norm_num [memory_threshold_gb])

/-- C9: every fired incident's details string states the measured value
formatted to 2 decimal places, the threshold, and the window; in particular a
CPU average of 85 against threshold 80 over 5 minutes produces details
containing "85.00%" and "80.0%", and an available-memory average of 1.5 GiB
(1610612736 bytes) produces details containing "1.50 GB". -/
theorem incident_details_format :
    (∀ (now a : ℚ) (cpu : MetricResponse) (m : Metric) (rest : List Metric)
      (t : MetricTimeSeriesElement) (tr : List MetricTimeSeriesElement),
      cpu.value = m :: rest → m.timeseries = t :: tr →
      get_recent_average now cpu_duration_minutes t.data = some a →
      a ≥ cpu_threshold_percent →
      detect_cpu_incident now cpu = .ok (some (cpuIncidentOf now m a)) ∧
      strContains (cpuIncidentOf now m a).details (formatQ2 a ++ "%") = true ∧
      strContains (cpuIncidentOf now m a).details "(80.0%)" = true ∧
      strContains (cpuIncidentOf now m a).details "5 minutes" = true) ∧
    (∀ (now a : ℚ) (mem : MetricResponse) (m : Metric) (rest : List Metric)
      (t : MetricTimeSeriesElement) (tr : List MetricTimeSeriesElement),
      mem.value = m :: rest → m.timeseries = t :: tr →
      get_recent_average now memory_duration_minutes t.data = some a →
      a / (1024 * 1024 * 1024) ≤ memory_threshold_gb →
      detect_memory_incident now mem = .ok (some (memIncidentOf now m a)) ∧
      strContains (memIncidentOf now m a).details
        (formatQ2 (a / (1024 * 1024 * 1024)) ++ " GB") = true ∧
      strContains (memIncidentOf now m a).details "(2.0 GB)" = true ∧
      strContains (memIncidentOf now m a).details "5 minutes" = true) ∧
    (∀ (now bin bout : ℚ) (m : Metric),
      strContains (netIncidentOf now m bin bout).details
        (formatQ2 (bin / 1024 + bout / 1024) ++ " KBps") = true ∧
      strContains (netIncidentOf now m bin bout).details "(100.0 KBps)" = true ∧
      strContains (netIncidentOf now m bin bout).details "5 minutes" = true) ∧
    detect_cpu_incident 0 (MetricResponse.mk [sampleMetric "Percentage CPU" 85]) =
      .ok (some (cpuIncidentOf 0 (sampleMetric "Percentage CPU" 85) 85)) ∧
    strContains (cpuIncidentOf 0 (sampleMetric "Percentage CPU" 85) 85).details
      "85.00%" = true ∧
    strContains (cpuIncidentOf 0 (sampleMetric "Percentage CPU" 85) 85).details
      "80.0%" = true ∧
    detect_memory_incident 0
        (MetricResponse.mk [sampleMetric "Available Memory Bytes" 1610612736]) =
      .ok (some (memIncidentOf 0 (sampleMetric "Available Memory Bytes" 1610612736)
        1610612736)) ∧
    strContains (memIncidentOf 0 (sampleMetric "Available Memory Bytes" 1610612736)
      1610612736).details "1.50 GB" = true := by
  refine ⟨?_, ?_, ?_, detect_cpu_sample85, ?_, ?_, detect_memory_sample15, ?_⟩
  · intro now a cpu m rest t tr hv hts ha hge
    refine ⟨?_, cpu_details_contains now m a⟩
    rw [detect_cpu_incident_char now cpu m rest t tr hv hts, ha]
    exact if_pos hge
  · intro now a mem m rest t tr hv hts ha hle
    refine ⟨?_, mem_details_contains now m a⟩
    rw [detect_memory_incident_char now mem m rest t tr hv hts, ha]
    exact if_pos hle
  · intro now bin bout m
    exact net_details_contains now m bin bout
  · rw [cpu_details_decomp, formatQ2_85]
    decide
  · rw [cpu_details_decomp, formatQ2_85]
    decide
  · rw [mem_details_decomp, formatQ2_gb15]
    decide

/-- C9 witness: the CPU clause applied at the concrete 85-percent snapshot. -/
theorem incident_details_format_witness :
    detect_cpu_incident 0 (MetricResponse.mk [sampleMetric "Percentage CPU" 85]) =
      .ok (some (cpuIncidentOf 0 (sampleMetric "Percentage CPU" 85) 85)) ∧
    strContains (cpuIncidentOf 0 (sampleMetric "Percentage CPU" 85) 85).details
      (formatQ2 85 ++ "%") = true := by
  have h := incident_details_format.1 0 85
    (MetricResponse.mk [sampleMetric "Percentage CPU" 85])
    (sampleMetric "Percentage CPU" 85) [] (MetricTimeSeriesElement.mk [samplePoint 85]) []
    rfl rfl (get_recent_average_samplePoint 5 85) (by norm_num [cpu_threshold_percent])
  exact ⟨h.1, h.2.1⟩

theorem detect_cpu_ok (now : ℚ) (cpu : MetricResponse) :
    ∃ o, detect_cpu_incident now cpu = .ok o := by
  rcases hv : cpu.value with _ | ⟨m, rest⟩
  · exact ⟨none, by unfold detect_cpu_incident; rw [hv]; rfl⟩
  · rcases hts : m.timeseries with _ | ⟨t, tr⟩
    · refine ⟨none, ?_⟩
      unfold detect_cpu_incident
      rw [hv]
      simp only [List.isEmpty_cons, Bool.false_eq_true, if_false, pyGet0, hts,
        List.isEmpty_nil, if_true]
    · rcases ha : get_recent_average now cpu_duration_minutes t.data with _ | a
      · exact ⟨none, by rw [detect_cpu_incident_char now cpu m rest t tr hv hts, ha]⟩
      · by_cases hge : a ≥ cpu_threshold_percent
        · exact ⟨some (cpuIncidentOf now m a), by
            rw [detect_cpu_incident_char now cpu m rest t tr hv hts, ha]
            exact if_pos hge⟩
        · exact ⟨none, by
            rw [detect_cpu_incident_char now cpu m rest t tr hv hts, ha]
            exact if_neg hge⟩

theorem detect_memory_ok (now : ℚ) (mem : MetricResponse) :
    ∃ o, detect_memory_incident now mem = .ok o := by
  rcases hv : mem.value with _ | ⟨m, rest⟩
  · exact ⟨none, by unfold detect_memory_incident; rw [hv]; rfl⟩
  · rcases hts : m.timeseries with _ | ⟨t, tr⟩
    · refine ⟨none, ?_⟩
      unfold detect_memory_incident
      rw [hv]
      simp only [List.isEmpty_cons, Bool.false_eq_true, if_false, pyGet0, hts,
        List.isEmpty_nil, if_true]
    · rcases ha : get_recent_average now memory_duration_minutes t.data with _ | a
      · exact ⟨none, by rw [detect_memory_incident_char now mem m rest t tr hv hts, ha]⟩
      · by_cases hle : a / (1024 * 1024 * 1024) ≤ memory_threshold_gb
        · exact ⟨some (memIncidentOf now m a), by
            rw [detect_memory_incident_char now mem m rest t tr hv hts, ha]
            exact if_pos hle⟩
        · exact ⟨none, by
            rw [detect_memory_incident_char now mem m rest t tr hv hts, ha]
            exact if_neg hle⟩

theorem findByName_ok_of_wf (target : String) (l : List Metric)
    (h : ∀ m ∈ l, (List.lookup "value" m.name).isSome = true) :
    ∃ o, findByName target l = .ok o := by
  induction l with
  | nil => exact ⟨none, rfl⟩
  | cons m rest ih =>
    rcases hl : List.lookup "value" m.name with _ | v
    · have hm := h m (List.mem_cons_self m rest)
      rw [hl] at hm
      exact absurd hm (by simp)
    · by_cases hveq : v = target
      · exact ⟨some m, by unfold findByName; simp only [hl]; rw [if_pos hveq]⟩
      · rcases ih (fun m1 hm1 => h m1 (List.mem_cons_of_mem _ hm1)) with ⟨o, ho⟩
        exact ⟨o, by unfold findByName; simp only [hl]; rw [if_neg hveq]; exact ho⟩

theorem findByName_mem (target : String) (l : List Metric) (m : Metric)
    (h : findByName target l = .ok (some m)) : m ∈ l := by
  induction l with
  | nil => simp [findByName] at h
  | cons m0 rest ih =>
    unfold findByName at h
    rcases hl : List.lookup "value" m0.name with _ | v
    · rw [hl] at h
      simp at h
    · simp only [hl] at h
      by_cases hveq : v = target
      · rw [if_pos hveq] at h
        have hm : m0 = m := by
          have h1 := Except.ok.inj h
          exact Option.some.inj h1
        exact hm ▸ List.mem_cons_self m0 rest
      · rw [if_neg hveq] at h
        exact List.mem_cons_of_mem _ (ih h)

theorem detect_network_ok_of_wf (now : ℚ) (net : MetricResponse)
    (h : ∀ m ∈ net.value,
      (List.lookup "value" m.name).isSome = true ∧ m.timeseries ≠ []) :
    ∃ o, detect_network_incident now net = .ok o := by
  rcases he : detect_network_incident now net with e | o
  · exfalso
    rcases hv : net.value with _ | ⟨m0, rest⟩
    · unfold detect_network_incident at he
      rw [hv] at he
      simp at he
    rcases rest with _ | ⟨m1, rest2⟩
    · unfold detect_network_incident at he
      rw [hv] at he
      simp only [List.isEmpty_cons, Bool.false_eq_true, if_false, List.length_cons,
        List.length_nil] at he
      rw [if_pos (by omega)] at he
      simp at he
    · have h0 := h m0 (by rw [hv]; exact List.mem_cons_self _ _)
      have h1 := h m1 (by rw [hv]; exact List.mem_cons_of_mem _ (List.mem_cons_self _ _))
      rcases ht0 : m0.timeseries with _ | ⟨t0, tr0⟩
      · exact h0.2 ht0
      rcases ht1 : m1.timeseries with _ | ⟨t1, tr1⟩
      · exact h1.2 ht1
      have hnames : ∀ m ∈ net.value, (List.lookup "value" m.name).isSome = true :=
        fun m hm => (h m hm).1
      rcases findByName_ok_of_wf "Network In Total" net.value hnames with ⟨oin, hin⟩
      rcases findByName_ok_of_wf "Network Out Total" net.value hnames with ⟨oout, hout⟩
      unfold detect_network_incident at he
      rw [hv] at he hin hout
      simp only [List.isEmpty_cons, Bool.false_eq_true, if_false, List.length_cons,
        pyGet0, pyGet1, ht0, ht1, List.isEmpty_nil] at he
      rw [if_neg (by omega)] at he
      rw [hin, hout] at he
      rcases oin with _ | mi
      · simp at he
      rcases oout with _ | mo
      · simp at he
      have hmi : mi ∈ net.value := by
        rw [hv]
        exact findByName_mem _ _ _ hin
      have hmo : mo ∈ net.value := by
        rw [hv]
        exact findByName_mem _ _ _ hout
      rcases hti : mi.timeseries with _ | ⟨ti, tri⟩
      · exact (h mi hmi).2 hti
      rcases htu : mo.timeseries with _ | ⟨tu, tru⟩
      · exact (h mo hmo).2 htu
      simp only [hti, htu, pyGet0] at he
      rcases hga : get_recent_average now network_duration_minutes ti.data with _ | bi
      · simp only [hga] at he
        simp at he
      rcases hgb : get_recent_average now network_duration_minutes tu.data with _ | bo
      · simp only [hga, hgb] at he
        simp at he
      · simp only [hga, hgb] at he
        split at he <;> simp at he
  · exact ⟨o, rfl⟩

theorem findByName_lookup (target : String) (l : List Metric) (m : Metric)
    (h : findByName target l = .ok (some m)) :
    List.lookup "value" m.name = some target := by
  induction l with
  | nil => simp [findByName] at h
  | cons m0 rest ih =>
    unfold findByName at h
    rcases hl : List.lookup "value" m0.name with _ | v
    · simp only [hl] at h
      simp at h
    · simp only [hl] at h
      by_cases hveq : v = target
      · rw [if_pos hveq] at h
        have hm : m0 = m := Option.some.inj (Except.ok.inj h)
        rw [← hm, hl, hveq]
      · rw [if_neg hveq] at h
        exact ih h

/-- A metric carries one of the two series names the network rule looks for. -/
def isNamedSeries (m : Metric) : Bool :=
  (List.lookup "value" m.name == some "Network In Total") ||
  (List.lookup "value" m.name == some "Network Out Total")

/-- How many of the two named network series are present in a snapshot. -/
def namedSeriesCount (net : MetricResponse) : Nat :=
  (net.value.filter isNamedSeries).length

theorem detect_network_not_both (now : ℚ) (net : MetricResponse)
    (m0 m1 : Metric) (rest2 : List Metric)
    (hv : net.value = m0 :: m1 :: rest2)
    (oin oout : Option Metric)
    (hin : findByName "Network In Total" net.value = .ok oin)
    (hout : findByName "Network Out Total" net.value = .ok oout)
    (hnotboth : oin = none ∨ oout = none) :
    detect_network_incident now net = .ok none := by
  unfold detect_network_incident
  rw [hv] at hin hout ⊢
  simp only [List.isEmpty_cons, Bool.false_eq_true, if_false, List.length_cons, pyGet0,
    pyGet1]
  rw [if_neg (by omega)]
  by_cases h0 : m0.timeseries.isEmpty = true
  · rw [if_pos h0]
  · rw [if_neg h0]
    by_cases h1 : m1.timeseries.isEmpty = true
    · rw [if_pos h1]
    · rw [if_neg h1]
      rw [hin, hout]
      rcases hnotboth with hn | hn
      · rw [hn]
      · rw [hn]
        rcases oin with _ | mi <;> rfl

/-- C4 (amended): `detect_cpu_incident` and `detect_memory_incident` never
raise on any snapshot, and missing or insufficient data yields `.ok none`;
`detect_network_incident` never raises provided every metric of the snapshot
has a name mapping containing the key `'value'` and a nonempty timeseries
list.  (As literally stated — over snapshots whose metric name mappings may
lack the expected key — the claim is false for the network rule, which
evaluates `m.name['value']` and raises `KeyError`; see the counterexample.) -/
theorem rule_evaluators_no_throw :
    (∀ (now : ℚ) (cpu : MetricResponse), ∃ o, detect_cpu_incident now cpu = .ok o) ∧
    (∀ (now : ℚ) (mem : MetricResponse), ∃ o, detect_memory_incident now mem = .ok o) ∧
    (∀ (now : ℚ) (net : MetricResponse),
      (∀ m ∈ net.value,
        (List.lookup "value" m.name).isSome = true ∧ m.timeseries ≠ []) →
      ∃ o, detect_network_incident now net = .ok o) ∧
    (∀ now : ℚ,
      detect_cpu_incident now (MetricResponse.mk []) = .ok none ∧
      detect_memory_incident now (MetricResponse.mk []) = .ok none ∧
      detect_network_incident now (MetricResponse.mk []) = .ok none) :=
  ⟨detect_cpu_ok, detect_memory_ok, detect_network_ok_of_wf,
    fun _ => ⟨rfl, rfl, rfl⟩⟩

/-- C4 counterexample: a snapshot passing the length/timeseries guards whose
first metric's name mapping lacks the key `'value'` makes
`detect_network_incident` raise `KeyError` instead of returning a result. -/
theorem rule_evaluators_no_throw_counterexample :
    detect_network_incident 0 (MetricResponse.mk
      [Metric.mk "m-bad" [("localizedValue", "x")] "t" "Count"
        [MetricTimeSeriesElement.mk [samplePoint 1]] (some "vm-1"),
       sampleMetric "Network Out Total" 1]) = .error PyErr.keyError := by
  decide

/-- C4 witness: the no-throw theorem applied at a well-formed two-series
snapshot carrying neither of the network series names. -/
theorem rule_evaluators_no_throw_witness :
    detect_network_incident 0
      (MetricResponse.mk [sampleMetric "Alpha" 1, sampleMetric "Beta" 1]) = .ok none := by
  obtain ⟨o, ho⟩ := rule_evaluators_no_throw.2.2.1 0
    (MetricResponse.mk [sampleMetric "Alpha" 1, sampleMetric "Beta" 1]) (by decide)
  have heval : detect_network_incident 0
      (MetricResponse.mk [sampleMetric "Alpha" 1, sampleMetric "Beta" 1]) = .ok none := by
    decide
  rw [ho] at heval
  rw [ho, heval]

/-- C6 (amended): when every metric name mapping of the snapshot contains the
key `'value'` and at most one of the two named series "Network In Total" /
"Network Out Total" is present, `detect_network_incident` returns `.ok none`
without raising.  (As literally stated the claim is false: with at most one
named series present the scan can still raise `KeyError` on a name mapping
lacking `'value'`; see the counterexample.) -/
theorem network_single_series_no_fire (now : ℚ) (net : MetricResponse)
    (hwf : ∀ m ∈ net.value, (List.lookup "value" m.name).isSome = true)
    (hcount : namedSeriesCount net ≤ 1) :
    detect_network_incident now net = .ok none := by
  rcases hv : net.value with _ | ⟨m0, rest⟩
  · unfold detect_network_incident
    rw [hv]
    rfl
  rcases rest with _ | ⟨m1, rest2⟩
  · unfold detect_network_incident
    rw [hv]
    simp only [List.isEmpty_cons, Bool.false_eq_true, if_false, List.length_cons,
      List.length_nil]
    rw [if_pos (by omega)]
  · rcases findByName_ok_of_wf "Network In Total" net.value hwf with ⟨oin, hin⟩
    rcases findByName_ok_of_wf "Network Out Total" net.value hwf with ⟨oout, hout⟩
    apply detect_network_not_both now net m0 m1 rest2 hv oin oout hin hout
    by_contra hb
    push_neg at hb
    rcases hb with ⟨hbi, hbo⟩
    rcases oin with _ | mi
    · exact hbi rfl
    rcases oout with _ | mo
    · exact hbo rfl
    have hmi : mi ∈ net.value := findByName_mem _ _ _ hin
    have hmo : mo ∈ net.value := findByName_mem _ _ _ hout
    have hli := findByName_lookup _ _ _ hin
    have hlo := findByName_lookup _ _ _ hout
    have hpi : mi ∈ net.value.filter isNamedSeries :=
      List.mem_filter.mpr ⟨hmi, by unfold isNamedSeries; rw [hli]; decide⟩
    have hpo : mo ∈ net.value.filter isNamedSeries :=
      List.mem_filter.mpr ⟨hmo, by unfold isNamedSeries; rw [hlo]; decide⟩
    unfold namedSeriesCount at hcount
    rcases hf : net.value.filter isNamedSeries with _ | ⟨a, frest⟩
    · rw [hf] at hpi
      simp at hpi
    rcases frest with _ | ⟨b, frest2⟩
    · rw [hf] at hpi hpo
      have h1 : mi = a := by simpa using hpi
      have h2 : mo = a := by simpa using hpo
      rw [h1] at hli
      rw [h2] at hlo
      rw [hli] at hlo
      simp at hlo
    · rw [hf] at hcount
      simp only [List.length_cons] at hcount
      omega

/-- C6 counterexample: a snapshot with zero of the two named series present
(at most one, as the claim requires) on which `detect_network_incident`
nevertheless raises `KeyError` rather than returning "no incident". -/
theorem network_single_series_counterexample :
    detect_network_incident 0 (MetricResponse.mk
      [Metric.mk "m-odd" [("localizedValue", "y")] "t" "Count"
        [MetricTimeSeriesElement.mk [samplePoint 2]] (some "vm-2"),
       sampleMetric "Whatever" 2]) = .error PyErr.keyError ∧
    namedSeriesCount (MetricResponse.mk
      [Metric.mk "m-odd" [("localizedValue", "y")] "t" "Count"
        [MetricTimeSeriesElement.mk [samplePoint 2]] (some "vm-2"),
       sampleMetric "Whatever" 2]) = 0 := by
  constructor
  · decide
  · decide

/-- C6 witness: a well-formed snapshot with exactly one named series yields
"no incident". -/
theorem network_single_series_no_fire_witness :
    detect_network_incident 0
      (MetricResponse.mk [sampleMetric "Network In Total" 3, sampleMetric "Other" 3]) =
      .ok none :=
  network_single_series_no_fire 0
    (MetricResponse.mk [sampleMetric "Network In Total" 3, sampleMetric "Other" 3])
    (by decide) (by decide)

theorem store_incidents_fst (appendOk : Nat → Bool) (i : Nat) (l : List Incident) :
    (store_incidents appendOk i l).1 = l.length := by
  induction l generalizing i with
  | nil => rfl
  | cons inc rest ih =>
    unfold store_incidents
    rcases store_append appendOk i with e | u <;> simp [List.length_cons, ih]

theorem run_detection_char (now : ℚ) (avail : Bool) (f : Nat → Bool)
    (cpu mem net : MetricResponse) (co mo nt : Option Incident)
    (hc : detect_cpu_incident now cpu = .ok co)
    (hm : detect_memory_incident now mem = .ok mo)
    (hn : detect_network_incident now net = .ok nt) :
    run_detection now avail f cpu mem net =
      .ok (co.toList ++ mo.toList ++ nt.toList,
        if avail then (store_incidents f 0 (co.toList ++ mo.toList ++ nt.toList)).1 else 0,
        if avail then (store_incidents f 0 (co.toList ++ mo.toList ++ nt.toList)).2
          else 0) := by
  unfold run_detection
  rw [hc, hm, hn]
  rcases avail <;> rfl

theorem pyGet0_error {α : Type} (l : List α) (e : PyErr) (h : pyGet0 l = .error e) :
    e = PyErr.indexError := by
  rcases l with _ | ⟨a, rest⟩
  · exact (Except.error.inj h).symm
  · exact absurd h (by simp [pyGet0])

theorem pyGet1_error {α : Type} (l : List α) (e : PyErr) (h : pyGet1 l = .error e) :
    e = PyErr.indexError := by
  rcases l with _ | ⟨a, rest⟩
  · exact (Except.error.inj h).symm
  · rcases rest with _ | ⟨b, rest2⟩
    · exact (Except.error.inj h).symm
    · exact absurd h (by simp [pyGet1])

theorem findByName_error (target : String) (l : List Metric) (e : PyErr)
    (h : findByName target l = .error e) : e = PyErr.keyError := by
  induction l with
  | nil => simp [findByName] at h
  | cons m rest ih =>
    unfold findByName at h
    rcases hl : List.lookup "value" m.name with _ | v
    · simp only [hl] at h
      exact (Except.error.inj h).symm
    · simp only [hl] at h
      by_cases hveq : v = target
      · rw [if_pos hveq] at h
        simp at h
      · rw [if_neg hveq] at h
        exact ih h

theorem pyGet0_cons {α : Type} (a : α) (l : List α) : pyGet0 (a :: l) = .ok a := rfl

theorem pyGet1_cons {α : Type} (a b : α) (l : List α) : pyGet1 (a :: b :: l) = .ok b := rfl

theorem detect_network_error_kind (now : ℚ) (net : MetricResponse) (e : PyErr)
    (h : detect_network_incident now net = .error e) :
    e = PyErr.keyError ∨ e = PyErr.indexError := by
  rcases hv : net.value with _ | ⟨m0, rest⟩
  · unfold detect_network_incident at h
    rw [hv] at h
    simp at h
  rcases rest with _ | ⟨m1, rest2⟩
  · unfold detect_network_incident at h
    rw [hv] at h
    simp only [List.isEmpty_cons, Bool.false_eq_true, if_false, List.length_cons,
      List.length_nil] at h
    rw [if_pos (by omega)] at h
    simp at h
  · unfold detect_network_incident at h
    rw [hv] at h
    simp only [List.isEmpty_cons, Bool.false_eq_true, if_false, List.length_cons,
      pyGet0_cons, pyGet1_cons] at h
    rw [if_neg (by omega)] at h
    by_cases h0 : m0.timeseries.isEmpty = true
    · rw [if_pos h0] at h
      simp at h
    rw [if_neg h0] at h
    by_cases h1 : m1.timeseries.isEmpty = true
    · rw [if_pos h1] at h
      simp at h
    rw [if_neg h1] at h
    rcases hfi : findByName "Network In Total" (m0 :: m1 :: rest2) with e1 | oin
    · simp only [hfi] at h
      have h2 := Except.error.inj h
      left
      rw [← h2]
      exact findByName_error _ _ _ hfi
    simp only [hfi] at h
    rcases hfo : findByName "Network Out Total" (m0 :: m1 :: rest2) with e1 | oout
    · simp only [hfo] at h
      have h2 := Except.error.inj h
      left
      rw [← h2]
      exact findByName_error _ _ _ hfo
    simp only [hfo] at h
    rcases oin with _ | mi
    · simp at h
    rcases oout with _ | mo
    · simp at h
    rcases hpi : pyGet0 mi.timeseries with e2 | ti
    · simp only [hpi] at h
      have h2 := Except.error.inj h
      right
      rw [← h2]
      exact pyGet0_error _ _ hpi
    simp only [hpi] at h
    rcases hpo : pyGet0 mo.timeseries with e2 | tu
    · simp only [hpo] at h
      have h2 := Except.error.inj h
      right
      rw [← h2]
      exact pyGet0_error _ _ hpo
    simp only [hpo] at h
    rcases hga : get_recent_average now network_duration_minutes ti.data with _ | bi
    · simp only [hga] at h
      simp at h
    simp only [hga] at h
    rcases hgb : get_recent_average now network_duration_minutes tu.data with _ | bo
    · simp only [hgb] at h
      simp at h
    simp only [hgb] at h
    split at h <;> simp at h

theorem run_detection_no_storeError (now : ℚ) (avail : Bool) (f : Nat → Bool)
    (cpu mem net : MetricResponse) (e : PyErr)
    (h : run_detection now avail f cpu mem net = .error e) : e ≠ PyErr.storeError := by
  obtain ⟨co, hc⟩ := detect_cpu_ok now cpu
  obtain ⟨mo, hm⟩ := detect_memory_ok now mem
  rcases hn : detect_network_incident now net with e1 | nt
  · unfold run_detection at h
    rw [hc, hm, hn] at h
    have h2 := Except.error.inj h
    rcases detect_network_error_kind now net e1 hn with h3 | h3 <;> rw [← h2, h3] <;> decide
  · rw [run_detection_char now avail f cpu mem net co mo nt hc hm hn] at h
    simp at h

/-- C3: append failures are recovered per incident: for any pattern of store
failures the returned list (and error outcome) is identical to the all-appends-
succeed run, every detected incident gets exactly one append attempt when the
store is configured, and no `StoreError` ever escapes to the caller. -/
theorem store_failures_recovered (now : ℚ) (avail : Bool) (f : Nat → Bool)
    (cpu mem net : MetricResponse) :
    (run_detection now avail f cpu mem net).map (fun r => r.1) =
      (run_detection now avail (fun _ => true) cpu mem net).map (fun r => r.1) ∧
    (∀ l att errs, run_detection now true f cpu mem net = .ok (l, att, errs) →
      att = l.length) ∧
    (∀ e, run_detection now avail f cpu mem net = .error e → e ≠ PyErr.storeError) := by
  refine ⟨?_, ?_, ?_⟩
  · unfold run_detection
    rcases hc : detect_cpu_incident now cpu with e | co
    · rfl
    rcases hm : detect_memory_incident now mem with e | mo
    · rfl
    rcases hn : detect_network_incident now net with e | nt
    · rfl
    rcases avail <;> rfl
  · intro l att errs hrun
    obtain ⟨co, hc⟩ := detect_cpu_ok now cpu
    obtain ⟨mo, hm⟩ := detect_memory_ok now mem
    rcases hn : detect_network_incident now net with e | nt
    · unfold run_detection at hrun
      rw [hc, hm, hn] at hrun
      simp at hrun
    · rw [run_detection_char now true f cpu mem net co mo nt hc hm hn] at hrun
      have h1 := Except.ok.inj hrun
      rw [Prod.mk.injEq, Prod.mk.injEq] at h1
      obtain ⟨hl, hatt, herr⟩ := h1
      rw [← hatt, ← hl]
      simp [store_incidents_fst]
  · intro e he
    exact run_detection_no_storeError now avail f cpu mem net e he

/-- C3 witness: with the CPU append failing (`f = fun _ => false`) on a cycle
that fires only the CPU rule, the returned list matches the all-success run
and the single incident still gets its one append attempt. -/
theorem store_failures_recovered_witness :
    (run_detection 0 true (fun _ => false)
        (MetricResponse.mk [sampleMetric "Percentage CPU" 85])
        (MetricResponse.mk []) (MetricResponse.mk [])).map (fun r => r.1) =
      (run_detection 0 true (fun _ => true)
        (MetricResponse.mk [sampleMetric "Percentage CPU" 85])
        (MetricResponse.mk []) (MetricResponse.mk [])).map (fun r => r.1) ∧
    1 = [cpuIncidentOf 0 (sampleMetric "Percentage CPU" 85) 85].length := by
  have h := store_failures_recovered 0 true (fun _ => false)
    (MetricResponse.mk [sampleMetric "Percentage CPU" 85])
    (MetricResponse.mk []) (MetricResponse.mk [])
  refine ⟨h.1, ?_⟩
  refine h.2.1 [cpuIncidentOf 0 (sampleMetric "Percentage CPU" 85) 85] 1 1 ?_
  rw [run_detection_char 0 true (fun _ => false)
    (MetricResponse.mk [sampleMetric "Percentage CPU" 85])
    (MetricResponse.mk []) (MetricResponse.mk [])
    (some (cpuIncidentOf 0 (sampleMetric "Percentage CPU" 85) 85)) none none
    detect_cpu_sample85 rfl rfl]
  rfl

/-- C2 (amended): provided every metric of the network snapshot has a name
mapping containing `'value'` and a nonempty timeseries (so the network rule
cannot raise), `run_detection` evaluates CPU, memory, network in that order,
returns exactly the fired incidents in that order, attempts one store append
per fired incident, and returns the empty list with zero append attempts when
no rule fires.  (As literally stated — over every triple of snapshots — the
claim fails: a malformed network snapshot makes `run_detection` raise instead
of returning the fired incidents; see the counterexample.) -/
theorem run_detection_order_spec (now : ℚ) (f : Nat → Bool)
    (cpu mem net : MetricResponse)
    (hwf : ∀ m ∈ net.value,
      (List.lookup "value" m.name).isSome = true ∧ m.timeseries ≠ []) :
    ∃ co mo nt,
      detect_cpu_incident now cpu = .ok co ∧
      detect_memory_incident now mem = .ok mo ∧
      detect_network_incident now net = .ok nt ∧
      run_detection now true f cpu mem net =
        .ok (co.toList ++ mo.toList ++ nt.toList,
          (co.toList ++ mo.toList ++ nt.toList).length,
          (store_incidents f 0 (co.toList ++ mo.toList ++ nt.toList)).2) ∧
      (co = none → mo = none → nt = none →
        run_detection now true f cpu mem net = .ok ([], 0, 0)) := by
  obtain ⟨co, hc⟩ := detect_cpu_ok now cpu
  obtain ⟨mo, hm⟩ := detect_memory_ok now mem
  obtain ⟨nt, hn⟩ := detect_network_ok_of_wf now net hwf
  refine ⟨co, mo, nt, hc, hm, hn, ?_, ?_⟩
  · rw [run_detection_char now true f cpu mem net co mo nt hc hm hn]
    simp [store_incidents_fst]
  · intro h1 h2 h3
    subst h1
    subst h2
    subst h3
    rw [run_detection_char now true f cpu mem net none none none hc hm hn]
    rfl

/-- C2 counterexample: with a malformed network snapshot the detection cycle
raises `KeyError` and returns no list at all, so the claim's universally
quantified contract does not hold for every triple of snapshots. -/
theorem run_detection_order_counterexample :
    run_detection 0 true (fun _ => true)
      (MetricResponse.mk []) (MetricResponse.mk [])
      (MetricResponse.mk
        [Metric.mk "m-bad2" [("foo", "bar")] "t" "Count"
          [MetricTimeSeriesElement.mk [samplePoint 4]] none,
         sampleMetric "Network In Total" 4]) = .error PyErr.keyError := by
  decide

/-- C2 witness: a cycle firing only the CPU rule returns that single incident
with one append attempt; the store loop records no error when appends
succeed. -/
theorem run_detection_order_spec_witness :
    run_detection 0 true (fun _ => true)
      (MetricResponse.mk [sampleMetric "Percentage CPU" 85])
      (MetricResponse.mk []) (MetricResponse.mk []) =
      .ok ([cpuIncidentOf 0 (sampleMetric "Percentage CPU" 85) 85], 1, 0) := by
  obtain ⟨co, mo, nt, h1, h2, h3, h4, h5⟩ := run_detection_order_spec 0 (fun _ => true)
    (MetricResponse.mk [sampleMetric "Percentage CPU" 85])
    (MetricResponse.mk []) (MetricResponse.mk []) (by simp)
  have hco : co = some (cpuIncidentOf 0 (sampleMetric "Percentage CPU" 85) 85) := by
    rw [detect_cpu_sample85] at h1
    exact (Except.ok.inj h1).symm
  have hmo : mo = none := by
    have h2a : (Except.ok none : Except PyErr (Option Incident)) = .ok mo := h2
    exact (Except.ok.inj h2a).symm
  have hnt : nt = none := by
    have h3a : (Except.ok none : Except PyErr (Option Incident)) = .ok nt := h3
    exact (Except.ok.inj h3a).symm
  subst hco
  subst hmo
  subst hnt
  exact h4

/-- C5 (amended): all three fetch operations catch any collaborator failure
(transport/auth/quota) in a blanket `except` handler and return the empty
snapshot `MetricResponse(value=[])`: no explicit FetchError reaches the
caller, and the failure result is identical to a successful fetch that found
zero metrics, while a successful fetch yields one `Metric` per raw metric of
the SDK response.  (The claim as stated — that failures are signalled
distinctly and an empty snapshot is never returned on failure — is exactly
what the code does not do; see the counterexample.) -/
theorem fetch_error_conflation (uri : String) (e : FetchErr) :
    get_vm_cpu_metrics uri (.error e) = MetricResponse.mk [] ∧
    get_vm_memory_metrics uri (.error e) = MetricResponse.mk [] ∧
    get_vm_network_metrics uri (.error e) = MetricResponse.mk [] ∧
    get_vm_cpu_metrics uri (.error e) =
      get_vm_cpu_metrics uri (.ok (AzureResponse.mk [])) ∧
    get_vm_memory_metrics uri (.error e) =
      get_vm_memory_metrics uri (.ok (AzureResponse.mk [])) ∧
    get_vm_network_metrics uri (.error e) =
      get_vm_network_metrics uri (.ok (AzureResponse.mk [])) ∧
    (∀ r : AzureResponse,
      (get_vm_cpu_metrics uri (.ok r)).value.length = r.metrics.length) :=
  ⟨rfl, rfl, rfl, rfl, rfl, rfl, fun r => by
    simp [get_vm_cpu_metrics, process_metric_response]⟩

/-- C5 counterexample: a transport failure makes `get_vm_cpu_metrics` return
the empty snapshot, indistinguishable from a successful fetch that found zero
metrics — the claimed discrimination does not exist in the code. -/
theorem fetch_error_discrimination_counterexample :
    get_vm_cpu_metrics "/subscriptions/s/vm" (.error FetchErr.transport) =
      MetricResponse.mk [] ∧
    get_vm_cpu_metrics "/subscriptions/s/vm" (.error FetchErr.transport) =
      get_vm_cpu_metrics "/subscriptions/s/vm" (.ok (AzureResponse.mk [])) :=
  ⟨rfl, rfl⟩
